import Mathlib

/-!
Verification of the information-density scoring engine of the doc-tools
repository, shallowly embedded from `03-Doc&Analy/docana.py`,
`03-Doc&Analy/mdana.py` and `02-Doc&Md/根据标点符号分段md文件.py`.
Python float arithmetic on the weight table is modelled with exact
rationals (every weight in the source is a short decimal literal).
-/

namespace DocTools

/-- Per-sentence feature counts computed by
`PDFInfoDensityAnalyzer.analyze_sentence` (docana.py lines 112-119):
numbers, time words, professional terms, conjunctions, modifiers and the
heuristic entity count. -/
structure PdfStats where
  numbers : Nat
  time_words : Nat
  professional_terms : Nat
  conjunctions : Nat
  modifiers : Nat
  entities : Nat
deriving Repr, DecidableEq

/-- Per-sentence feature counts computed by
`MarkdownInfoDensityAnalyzer.analyze_sentence` (mdana.py lines 188-197):
the plain-text features plus inline-code snippets and markdown links. -/
structure MdStats where
  numbers : Nat
  time_words : Nat
  professional_terms : Nat
  conjunctions : Nat
  modifiers : Nat
  entities : Nat
  code_snippets : Nat
  links : Nat
deriving Repr, DecidableEq

/-- Context flags attached to a markdown sentence by
`MarkdownInfoDensityAnalyzer.get_sentence_context` (mdana.py lines 323-348). -/
structure MdContext where
  is_heading : Bool
  is_list_item : Bool
  is_blockquote : Bool
  heading_level : Nat
deriving Repr, DecidableEq

/-- Weight table `self.weights` of `PDFInfoDensityAnalyzer.__init__`
(docana.py lines 28-36), keyed by feature-class name; absent keys give 0
(the source never looks one up). -/
def pdfWeights (k : String) : ℚ :=
  if k = "number" then 3
  else if k = "time" then 5/2
  else if k = "entity" then 2
  else if k = "professional" then 2
  else if k = "verb" then 3/2
  else if k = "conjunction" then 1
  else if k = "modifier" then -(1/2)
  else 0

/-- Weight table `self.weights` of `MarkdownInfoDensityAnalyzer.__init__`
(mdana.py lines 22-34). -/
def mdWeights (k : String) : ℚ :=
  if k = "number" then 3
  else if k = "time" then 5/2
  else if k = "entity" then 2
  else if k = "professional" then 2
  else if k = "code" then 5/2
  else if k = "link" then 3/2
  else if k = "verb" then 3/2
  else if k = "conjunction" then 1
  else if k = "modifier" then -(1/2)
  else if k = "list_item" then 6/5
  else if k = "heading" then 9/5
  else 0

/-- Information score of a plain-text sentence (docana.py lines 122-128):
the weighted sum over numbers, time words, professional terms,
conjunctions and modifiers. -/
def pdfInfoScore (s : PdfStats) : ℚ :=
  (s.numbers : ℚ) * pdfWeights "number" +
  (s.time_words : ℚ) * pdfWeights "time" +
  (s.professional_terms : ℚ) * pdfWeights "professional" +
  (s.conjunctions : ℚ) * pdfWeights "conjunction" +
  (s.modifiers : ℚ) * pdfWeights "modifier"

/-- Context bonus of a markdown sentence (mdana.py lines 200-205): with no
context the bonus is 0; otherwise the heading weight is added when
`is_heading` is set and the list-item weight when `is_list_item` is set.
The blockquote flag is never consulted. -/
def contextBonus : Option MdContext → ℚ
  | none => 0
  | some c =>
    (if c.is_heading then mdWeights "heading" else 0) +
    (if c.is_list_item then mdWeights "list_item" else 0)

/-- Information score of a markdown sentence (mdana.py lines 208-217):
the plain-text weighted sum plus code snippets, links and the context
bonus. -/
def mdInfoScore (s : MdStats) (ctx : Option MdContext) : ℚ :=
  (s.numbers : ℚ) * mdWeights "number" +
  (s.time_words : ℚ) * mdWeights "time" +
  (s.professional_terms : ℚ) * mdWeights "professional" +
  (s.conjunctions : ℚ) * mdWeights "conjunction" +
  (s.modifiers : ℚ) * mdWeights "modifier" +
  (s.code_snippets : ℚ) * mdWeights "code" +
  (s.links : ℚ) * mdWeights "link" +
  contextBonus ctx

/-- Density of a sentence (docana.py line 131, mdana.py line 220):
`info_score / total_chars` when the character count is positive, else 0. -/
def densityOf (score : ℚ) (total_chars : Nat) : ℚ :=
  if 0 < total_chars then score / (total_chars : ℚ) else 0

/-- Quality tier assigned to a sentence. -/
inductive Quality where
  | high
  | medium
  | low
deriving Repr, DecidableEq

/-- Quality tier in the plain-text analyzer (docana.py lines 134-139):
high above 0.15, medium above 0.08, low otherwise. -/
def pdfQuality (density : ℚ) : Quality :=
  if density > 15/100 then Quality.high
  else if density > 8/100 then Quality.medium
  else Quality.low

/-- Quality tier in the markdown analyzer (mdana.py lines 223-228):
high above 0.12, medium above 0.06, low otherwise. -/
def mdQuality (density : ℚ) : Quality :=
  if density > 12/100 then Quality.high
  else if density > 6/100 then Quality.medium
  else Quality.low

/-- All-zero plain-text feature vector. -/
def pdfZeroStats : PdfStats := ⟨0, 0, 0, 0, 0, 0⟩

/-- All-zero markdown feature vector. -/
def mdZeroStats : MdStats := ⟨0, 0, 0, 0, 0, 0, 0, 0⟩

theorem pdfWeights_number : pdfWeights "number" = 3 := rfl
theorem pdfWeights_time : pdfWeights "time" = 5/2 := rfl
theorem pdfWeights_professional : pdfWeights "professional" = 2 := rfl
theorem pdfWeights_conjunction : pdfWeights "conjunction" = 1 := rfl
theorem pdfWeights_modifier : pdfWeights "modifier" = -(1/2) := rfl
theorem mdWeights_number : mdWeights "number" = 3 := rfl
theorem mdWeights_time : mdWeights "time" = 5/2 := rfl
theorem mdWeights_professional : mdWeights "professional" = 2 := rfl
theorem mdWeights_conjunction : mdWeights "conjunction" = 1 := rfl
theorem mdWeights_modifier : mdWeights "modifier" = -(1/2) := rfl
theorem mdWeights_code : mdWeights "code" = 5/2 := rfl
theorem mdWeights_link : mdWeights "link" = 3/2 := rfl
theorem mdWeights_heading : mdWeights "heading" = 9/5 := rfl
theorem mdWeights_list_item : mdWeights "list_item" = 6/5 := rfl

/-- Tri-valued threshold characterization shared by both quality functions. -/
theorem tier_characterization (hi lo d : ℚ) (h : lo < hi) :
    ((if d > hi then Quality.high else if d > lo then Quality.medium else Quality.low) =
        Quality.high ↔ d > hi) ∧
    ((if d > hi then Quality.high else if d > lo then Quality.medium else Quality.low) =
        Quality.medium ↔ lo < d ∧ d ≤ hi) ∧
    ((if d > hi then Quality.high else if d > lo then Quality.medium else Quality.low) =
        Quality.low ↔ d ≤ lo) := by
  split_ifs with h₁ h₂
  · refine ⟨by simp [h₁], ?_, ?_⟩
    · simp only [reduceCtorEq, false_iff, not_and, not_le]
      intro _
      linarith
    · simp only [reduceCtorEq, false_iff, not_le]
      linarith
  · push_neg at h₁
    refine ⟨?_, ?_, ?_⟩
    · simp only [reduceCtorEq, false_iff, not_lt]
      exact h₁
    · simp only [true_iff]
      exact ⟨h₂, h₁⟩
    · simp only [reduceCtorEq, false_iff, not_le]
      exact h₂
  · push_neg at h₁ h₂
    refine ⟨?_, ?_, ?_⟩
    · simp only [reduceCtorEq, false_iff, not_lt]
      linarith
    · simp only [reduceCtorEq, false_iff, not_and, not_le]
      intro hx
      linarith
    · simp only [true_iff]
      exact h₂

/-- C1: every scored segment's info_score is the documented weighted sum —
numbers×3.0 + time×2.5 + professional×2.0 + code×2.5 + links×1.5 +
conjunctions×1.0 + modifiers×(−0.5) — plus a context bonus that adds the
fixed heading bonus (1.8) when annotated as a heading and the fixed
list-item bonus (1.2) when annotated as a list item, the heading bonus
strictly larger, with no bonus for blockquote context; the plain-text
analyzer uses the same formula without the code, link and context terms. -/
theorem infoScore_is_documented_weighted_sum :
    (∀ (s : MdStats) (ctx : Option MdContext),
      mdInfoScore s ctx =
        (s.numbers : ℚ) * 3 + (s.time_words : ℚ) * (5/2) +
        (s.professional_terms : ℚ) * 2 + (s.code_snippets : ℚ) * (5/2) +
        (s.links : ℚ) * (3/2) + (s.conjunctions : ℚ) * 1 +
        (s.modifiers : ℚ) * (-(1/2)) + contextBonus ctx) ∧
    (∀ c : MdContext,
      contextBonus (some c) =
        (if c.is_heading then (9 : ℚ)/5 else 0) +
        (if c.is_list_item then (6 : ℚ)/5 else 0)) ∧
    (∀ b₁ b₂ : Bool, ∀ n₁ n₂ : Nat, ∀ h l : Bool,
      contextBonus (some ⟨h, l, b₁, n₁⟩) = contextBonus (some ⟨h, l, b₂, n₂⟩)) ∧
    mdWeights "heading" > mdWeights "list_item" ∧
    (∀ s : PdfStats,
      pdfInfoScore s =
        (s.numbers : ℚ) * 3 + (s.time_words : ℚ) * (5/2) +
        (s.professional_terms : ℚ) * 2 + (s.conjunctions : ℚ) * 1 +
        (s.modifiers : ℚ) * (-(1/2))) := by
  refine ⟨fun s ctx => ?_, fun c => ?_, fun b₁ b₂ n₁ n₂ h l => ?_, ?_, fun s => ?_⟩
  · simp only [mdInfoScore, mdWeights_number, mdWeights_time, mdWeights_professional,
      mdWeights_conjunction, mdWeights_modifier, mdWeights_code, mdWeights_link]
    ring
  · simp only [contextBonus, mdWeights_heading, mdWeights_list_item]
  · simp only [contextBonus]
  · rw [mdWeights_heading, mdWeights_list_item]; norm_num
  · simp only [pdfInfoScore, pdfWeights_number, pdfWeights_time, pdfWeights_professional,
      pdfWeights_conjunction, pdfWeights_modifier]

/-- C3: in the plain-text analyzer the tier is high exactly when
density > 0.15, medium exactly when 0.08 < density ≤ 0.15 and low exactly
when density ≤ 0.08; in the markdown analyzer the thresholds 0.12 and
0.06 play the same roles; and a segment with all feature counts 0 and
context bonus 0 has info_score 0, density 0 and is classified low. -/
theorem quality_tier_thresholds :
    (∀ d : ℚ,
      (pdfQuality d = Quality.high ↔ d > 15/100) ∧
      (pdfQuality d = Quality.medium ↔ 8/100 < d ∧ d ≤ 15/100) ∧
      (pdfQuality d = Quality.low ↔ d ≤ 8/100)) ∧
    (∀ d : ℚ,
      (mdQuality d = Quality.high ↔ d > 12/100) ∧
      (mdQuality d = Quality.medium ↔ 6/100 < d ∧ d ≤ 12/100) ∧
      (mdQuality d = Quality.low ↔ d ≤ 6/100)) ∧
    pdfInfoScore pdfZeroStats = 0 ∧
    (∀ ctx : Option MdContext, contextBonus ctx = 0 →
      mdInfoScore mdZeroStats ctx = 0) ∧
    (∀ n : Nat, densityOf 0 n = 0) ∧
    pdfQuality 0 = Quality.low ∧
    mdQuality 0 = Quality.low := by
  refine ⟨fun d => ?_, fun d => ?_, ?_, fun ctx h => ?_, fun n => ?_, ?_, ?_⟩
  · exact tier_characterization (15/100) (8/100) d (by norm_num)
  · exact tier_characterization (12/100) (6/100) d (by norm_num)
  · simp [pdfInfoScore, pdfZeroStats]
  · simp [mdInfoScore, mdZeroStats, h]
  · simp [densityOf]
  · unfold pdfQuality
    rw [if_neg (by norm_num), if_neg (by norm_num)]
  · unfold mdQuality
    rw [if_neg (by norm_num), if_neg (by norm_num)]

/-- Witness for C3's context-bonus component at the empty context. -/
theorem quality_tier_thresholds_witness :
    contextBonus none = 0 ∧ mdInfoScore mdZeroStats none = 0 :=
  ⟨rfl, quality_tier_thresholds.2.2.2.1 none rfl⟩

/-- C9: for every scored segment with positive char_count, incrementing the
professional_terms count by one while holding char_count, the other feature
counts and the context bonus fixed raises info_score by exactly 2.0 and
strictly increases density, in both analyzers. -/
theorem professional_term_increment (s : PdfStats) (t : MdStats)
    (ctx : Option MdContext) (n : Nat) (hn : 0 < n) :
    pdfInfoScore { s with professional_terms := s.professional_terms + 1 } =
      pdfInfoScore s + 2 ∧
    mdInfoScore { t with professional_terms := t.professional_terms + 1 } ctx =
      mdInfoScore t ctx + 2 ∧
    densityOf (pdfInfoScore s + 2) n > densityOf (pdfInfoScore s) n ∧
    densityOf (mdInfoScore t ctx + 2) n > densityOf (mdInfoScore t ctx) n := by
  have hq : (0 : ℚ) < (n : ℚ) := by exact_mod_cast hn
  refine ⟨?_, ?_, ?_, ?_⟩
  · simp only [pdfInfoScore, pdfWeights_professional]
    push_cast
    ring
  · simp only [mdInfoScore, mdWeights_professional]
    push_cast
    ring
  · rw [densityOf, densityOf, if_pos hn, if_pos hn]
    exact (div_lt_div_iff_of_pos_right hq).mpr (by linarith)
  · rw [densityOf, densityOf, if_pos hn, if_pos hn]
    exact (div_lt_div_iff_of_pos_right hq).mpr (by linarith)

/-- Witness for C9 at the zero feature vectors, no context and five
characters. -/
theorem professional_term_increment_witness :
    0 < 5 ∧
    (pdfInfoScore { pdfZeroStats with
        professional_terms := pdfZeroStats.professional_terms + 1 } =
      pdfInfoScore pdfZeroStats + 2 ∧
    mdInfoScore { mdZeroStats with
        professional_terms := mdZeroStats.professional_terms + 1 } none =
      mdInfoScore mdZeroStats none + 2 ∧
    densityOf (pdfInfoScore pdfZeroStats + 2) 5 >
      densityOf (pdfInfoScore pdfZeroStats) 5 ∧
    densityOf (mdInfoScore mdZeroStats none + 2) 5 >
      densityOf (mdInfoScore mdZeroStats none) 5) :=
  ⟨by norm_num, professional_term_increment pdfZeroStats mdZeroStats none 5 (by norm_num)⟩

/-- C10: both weight tables carry an entity weight of 2.0 and a verb weight
of 1.5, yet neither contributes to info_score: segments identical except
for their entity counts have equal info_score and equal density in both
analyzers. -/
theorem entity_verb_weights_unused :
    pdfWeights "entity" = 2 ∧ pdfWeights "verb" = 3/2 ∧
    mdWeights "entity" = 2 ∧ mdWeights "verb" = 3/2 ∧
    (∀ (s : PdfStats) (e : Nat),
      pdfInfoScore { s with entities := e } = pdfInfoScore s) ∧
    (∀ (t : MdStats) (ctx : Option MdContext) (e : Nat),
      mdInfoScore { t with entities := e } ctx = mdInfoScore t ctx) ∧
    (∀ (s : PdfStats) (e n : Nat),
      densityOf (pdfInfoScore { s with entities := e }) n =
        densityOf (pdfInfoScore s) n) ∧
    (∀ (t : MdStats) (ctx : Option MdContext) (e n : Nat),
      densityOf (mdInfoScore { t with entities := e } ctx) n =
        densityOf (mdInfoScore t ctx) n) :=
  ⟨rfl, rfl, rfl, rfl, fun _ _ => rfl, fun _ _ _ => rfl,
    fun _ _ _ => rfl, fun _ _ _ _ => rfl⟩

/-- Record kept for one scored sentence: its density, quality tier and
non-space character count (docana.py lines 141-148, mdana.py 230-238). -/
structure SentenceResult where
  density : ℚ
  quality : Quality
  total_chars : Nat
deriving Repr, DecidableEq

/-- Count of sentence results in a given tier, the filter-and-count used
for `quality_distribution` and `high_quality_count` (docana.py lines 196
and 211-213, mdana.py lines 297 and 307-309). -/
def countQuality (q : Quality) (rs : List SentenceResult) : Nat :=
  (rs.filter fun r => decide (r.quality = q)).length

/-- Per-document analysis record (docana.py lines 204-221 and the early
returns at 153-191; mdana.py 243-321). `hasError` models the presence of
the `error` key of the dict. -/
structure DocumentRecord where
  filename : String
  total_sentences : Nat
  total_chars : Nat
  average_density : ℚ
  high_quality_ratio : ℚ
  dist_high : Nat
  dist_medium : Nat
  dist_low : Nat
  hasError : Bool
deriving Repr, DecidableEq

/-- Aggregation of the scored sentence results into the document record,
shared verbatim by docana.py analyze_text (lines 183-221) and mdana.py
analyze_markdown_content (lines 283-321): with no results the record
carries the error marker and zero stats; otherwise the mean density,
high-quality ratio and tier histogram are computed over the results. -/
def aggregateResults (filename : String) (rs : List SentenceResult) :
    DocumentRecord :=
  if rs.isEmpty then
    { filename := filename, total_sentences := 0, total_chars := 0,
      average_density := 0, high_quality_ratio := 0,
      dist_high := 0, dist_medium := 0, dist_low := 0, hasError := true }
  else
    { filename := filename
      total_sentences := rs.length
      total_chars := (rs.map fun r => r.total_chars).sum
      average_density := (rs.map fun r => r.density).sum / (rs.length : ℚ)
      high_quality_ratio := (countQuality Quality.high rs : ℚ) / (rs.length : ℚ)
      dist_high := countQuality Quality.high rs
      dist_medium := countQuality Quality.medium rs
      dist_low := countQuality Quality.low rs
      hasError := false }

/-- Every sentence result lands in exactly one tier, so the three counts
partition the list. -/
theorem countQuality_total (rs : List SentenceResult) :
    countQuality Quality.high rs + countQuality Quality.medium rs +
      countQuality Quality.low rs = rs.length := by
  induction rs with
  | nil => rfl
  | cons r rest ih =>
    unfold countQuality at ih ⊢
    rcases h : r.quality <;> simp [List.filter_cons, h] <;> omega

/-- Sample sentence result used by witnesses. -/
def sampleResult : SentenceResult := ⟨1/10, Quality.medium, 20⟩

/-- C6: for every document record produced from at least one scored
segment, the high, medium and low counts of the quality histogram sum
exactly to total_segments, the number of scored segments. -/
theorem quality_histogram_sum (filename : String) (rs : List SentenceResult)
    (h : rs ≠ []) :
    (aggregateResults filename rs).dist_high +
      (aggregateResults filename rs).dist_medium +
      (aggregateResults filename rs).dist_low =
      (aggregateResults filename rs).total_sentences := by
  have hne : ¬(rs.isEmpty = true) := by
    cases rs with
    | nil => exact absurd rfl h
    | cons a l => simp
  unfold aggregateResults
  rw [if_neg hne]
  exact countQuality_total rs

/-- Witness for C6 on a one-segment document. -/
theorem quality_histogram_sum_witness :
    ([sampleResult] : List SentenceResult) ≠ [] ∧
    (aggregateResults "doc" [sampleResult]).dist_high +
      (aggregateResults "doc" [sampleResult]).dist_medium +
      (aggregateResults "doc" [sampleResult]).dist_low =
      (aggregateResults "doc" [sampleResult]).total_sentences :=
  ⟨by simp, quality_histogram_sum "doc" [sampleResult] (by simp)⟩

/-- C7: for every document record, high_quality_ratio is high_count divided
by total_segments when there is at least one scored segment, and 0 when
there are none, the empty case being handled by an explicit branch rather
than a division. -/
theorem high_quality_ratio_division (filename : String)
    (rs : List SentenceResult) :
    (rs ≠ [] →
      (aggregateResults filename rs).high_quality_ratio =
        ((aggregateResults filename rs).dist_high : ℚ) /
          ((aggregateResults filename rs).total_sentences : ℚ)) ∧
    (rs = [] → (aggregateResults filename rs).high_quality_ratio = 0) := by
  constructor
  · intro h
    cases rs with
    | nil => exact absurd rfl h
    | cons r rest => rfl
  · intro h
    subst h
    rfl

/-- Witness for C7 on a one-segment document and on the empty document. -/
theorem high_quality_ratio_division_witness :
    (([sampleResult] : List SentenceResult) ≠ [] ∧
      (aggregateResults "doc" [sampleResult]).high_quality_ratio =
        ((aggregateResults "doc" [sampleResult]).dist_high : ℚ) /
          ((aggregateResults "doc" [sampleResult]).total_sentences : ℚ)) ∧
    (([] : List SentenceResult) = [] ∧
      (aggregateResults "doc" ([] : List SentenceResult)).high_quality_ratio = 0) :=
  ⟨⟨by simp, (high_quality_ratio_division "doc" [sampleResult]).1 (by simp)⟩,
    ⟨rfl, (high_quality_ratio_division "doc" []).2 rfl⟩⟩

/-- Valid results of a batch: the records without the error marker
(docana.py line 442, mdana.py line 758). -/
def validResults (docs : List DocumentRecord) : List DocumentRecord :=
  docs.filter fun d => !d.hasError

/-- Corpus-level global mean density (docana.py line 460, mdana.py line
775): the sum of the per-document average densities divided by the number
of valid documents. -/
def calculateGlobalMeanDensity (docs : List DocumentRecord) : ℚ :=
  ((validResults docs).map fun d => d.average_density).sum /
    ((validResults docs).length : ℚ)

/-- Formalization of the spec sentence, for comparison: the unweighted
arithmetic mean of the list of per-document mean densities. -/
def unweightedMeanOfDocMeans (docs : List DocumentRecord) : ℚ :=
  ((validResults docs).map fun d => d.average_density).sum /
    ((((validResults docs).map fun d => d.average_density).length : Nat) : ℚ)

/-- Segment-count-weighted corpus mean, the re-weighted alternative the
spec explicitly says the source does NOT compute. -/
def segmentWeightedMeanDensity (docs : List DocumentRecord) : ℚ :=
  ((validResults docs).map
      fun d => d.average_density * (d.total_sentences : ℚ)).sum /
    (((validResults docs).map fun d => (d.total_sentences : ℚ)).sum)

/-- Descending insertion by average density, the order used by
`sorted(valid_results, key=lambda x: x['average_density'], reverse=True)`
(docana.py line 477, mdana.py line 845). -/
def insertByDensityDesc (d : DocumentRecord) :
    List DocumentRecord → List DocumentRecord
  | [] => [d]
  | e :: rest =>
    if d.average_density > e.average_density then d :: e :: rest
    else e :: insertByDensityDesc d rest

/-- Descending insertion sort on document records. -/
def sortByDensityDesc (l : List DocumentRecord) : List DocumentRecord :=
  l.foldr insertByDensityDesc []

/-- Corpus ranking: the valid documents sorted by mean density descending. -/
def rankByDensity (docs : List DocumentRecord) : List DocumentRecord :=
  sortByDensityDesc (validResults docs)

theorem insertByDensityDesc_perm (d : DocumentRecord)
    (l : List DocumentRecord) : (insertByDensityDesc d l).Perm (d :: l) := by
  induction l with
  | nil => exact List.Perm.refl _
  | cons e rest ih =>
    unfold insertByDensityDesc
    split
    · exact List.Perm.refl _
    · exact (List.Perm.cons e ih).trans (List.Perm.swap d e rest)

theorem sortByDensityDesc_perm (l : List DocumentRecord) :
    (sortByDensityDesc l).Perm l := by
  induction l with
  | nil => exact List.Perm.refl _
  | cons e rest ih =>
    exact (insertByDensityDesc_perm e (sortByDensityDesc rest)).trans
      (List.Perm.cons e ih)

theorem insertByDensityDesc_pairwise (d : DocumentRecord)
    (l : List DocumentRecord)
    (hl : l.Pairwise fun a b => b.average_density ≤ a.average_density) :
    (insertByDensityDesc d l).Pairwise
      fun a b => b.average_density ≤ a.average_density := by
  induction l with
  | nil => simp [insertByDensityDesc]
  | cons e rest ih =>
    rw [List.pairwise_cons] at hl
    unfold insertByDensityDesc
    split
    · rename_i hgt
      rw [List.pairwise_cons]
      refine ⟨?_, List.pairwise_cons.mpr hl⟩
      intro b hb
      rcases List.mem_cons.mp hb with rfl | hb
      · exact le_of_lt hgt
      · exact le_trans (hl.1 b hb) (le_of_lt hgt)
    · rename_i hle
      push_neg at hle
      rw [List.pairwise_cons]
      refine ⟨?_, ih hl.2⟩
      intro b hb
      have hmem := (insertByDensityDesc_perm d rest).mem_iff.mp hb
      rcases List.mem_cons.mp hmem with rfl | hb₂
      · exact hle
      · exact hl.1 b hb₂

theorem sortByDensityDesc_pairwise (l : List DocumentRecord) :
    (sortByDensityDesc l).Pairwise
      fun a b => b.average_density ≤ a.average_density := by
  induction l with
  | nil => simp [sortByDensityDesc]
  | cons e rest ih => exact insertByDensityDesc_pairwise e _ ih

/-- First sample document record: mean density 0.20, one segment. -/
def docA : DocumentRecord :=
  ⟨"a.pdf", 1, 30, 1/5, 1, 1, 0, 0, false⟩

/-- Second sample document record: mean density 0.05, one segment. -/
def docB : DocumentRecord :=
  ⟨"b.pdf", 1, 30, 1/20, 0, 0, 0, 1, false⟩

/-- Third sample document record: mean density 0.12, ten segments. -/
def docC : DocumentRecord :=
  ⟨"c.pdf", 10, 300, 3/25, 0, 0, 10, 0, false⟩

/-- C4: the corpus global mean density is the unweighted arithmetic mean of
the per-document mean densities; the ranking lists the valid documents in
descending order of mean density and is a permutation of them; for three
documents with mean densities 0.20, 0.05, 0.12 the ranking order is 0.20,
0.12, 0.05, the global mean is their plain average 37/300, while the
segment-count-weighted mean of the same corpus is the different value
29/240. -/
theorem corpus_mean_and_ranking :
    (∀ docs : List DocumentRecord,
      calculateGlobalMeanDensity docs = unweightedMeanOfDocMeans docs) ∧
    (∀ docs : List DocumentRecord,
      (rankByDensity docs).Pairwise
        fun a b => b.average_density ≤ a.average_density) ∧
    (∀ docs : List DocumentRecord,
      (rankByDensity docs).Perm (validResults docs)) ∧
    ((rankByDensity [docA, docB, docC]).map fun d => d.average_density) =
      [1/5, 3/25, 1/20] ∧
    calculateGlobalMeanDensity [docA, docB, docC] = 37/300 ∧
    segmentWeightedMeanDensity [docA, docB, docC] = 29/240 := by
  refine ⟨fun docs => ?_, fun docs => ?_, fun docs => ?_, ?_, ?_, ?_⟩
  · unfold calculateGlobalMeanDensity unweightedMeanOfDocMeans
    rw [List.length_map]
  · exact sortByDensityDesc_pairwise (validResults docs)
  · exact sortByDensityDesc_perm (validResults docs)
  · unfold rankByDensity sortByDensityDesc validResults
    simp only [docA, docB, docC, List.filter, List.foldr]
    norm_num [insertByDensityDesc]
  · unfold calculateGlobalMeanDensity validResults
    simp only [docA, docB, docC, List.filter]
    norm_num
  · unfold segmentWeightedMeanDensity validResults
    simp only [docA, docB, docC, List.filter]
    norm_num

/-- Failure record for a document whose raw-text extraction failed
(docana.py line 253, mdana.py line 425). -/
structure FailureRecord where
  filename : String
  reason : String
deriving Repr, DecidableEq

/-- Batch loop of docana.py analyze_pdf_folder (lines 241-261) and mdana.py
analyze_markdown_folder (lines 414-442): each input is a filename together
with the outcome of raw-text extraction, abstracted here as either the
extraction error string or the list of scored sentence results the
per-document analysis produces from the extracted text; an error appends a
failure record and skips the document, a success appends the aggregated
document record. -/
def analyzeFolder :
    List (String × Except String (List SentenceResult)) →
      List DocumentRecord × List FailureRecord
  | [] => ([], [])
  | (name, Except.error e) :: rest =>
    let p := analyzeFolder rest
    (p.1, ⟨name, e⟩ :: p.2)
  | (name, Except.ok rs) :: rest =>
    let p := analyzeFolder rest
    (aggregateResults name rs :: p.1, p.2)

/-- Successful sentence results of the first sample document. -/
def rsOne : List SentenceResult := [⟨1/5, Quality.high, 10⟩]

/-- Successful sentence results of the third sample document. -/
def rsThree : List SentenceResult :=
  [⟨1/10, Quality.medium, 10⟩, ⟨0, Quality.low, 10⟩]

/-- Three-document corpus whose second document fails extraction. -/
def corpusThree : List (String × Except String (List SentenceResult)) :=
  [("doc1.pdf", Except.ok rsOne),
   ("doc2.pdf", Except.error "PDF reading failed"),
   ("doc3.pdf", Except.ok rsThree)]

/-- C5: a document whose extraction fails becomes a FailureRecord and is
skipped while every other document is still analyzed — the document
records are exactly the aggregations of the successful extractions, in
order, and the failures are exactly the failed ones; on a 3-document
corpus whose second document fails, the run yields 2 document records and
1 failure record, and corpus aggregation ranges over the 2 successes. -/
theorem folder_failure_isolation :
    (∀ files : List (String × Except String (List SentenceResult)),
      (analyzeFolder files).1 =
        files.filterMap (fun f =>
          match f.2 with
          | Except.ok rs => some (aggregateResults f.1 rs)
          | Except.error _ => none) ∧
      (analyzeFolder files).2 =
        files.filterMap (fun f =>
          match f.2 with
          | Except.ok _ => none
          | Except.error e => some ⟨f.1, e⟩)) ∧
    (analyzeFolder corpusThree).1.length = 2 ∧
    (analyzeFolder corpusThree).2.length = 1 ∧
    (analyzeFolder corpusThree).1 =
      [aggregateResults "doc1.pdf" rsOne, aggregateResults "doc3.pdf" rsThree] ∧
    (analyzeFolder corpusThree).2 = [⟨"doc2.pdf", "PDF reading failed"⟩] ∧
    calculateGlobalMeanDensity (analyzeFolder corpusThree).1 =
      ((aggregateResults "doc1.pdf" rsOne).average_density +
        (aggregateResults "doc3.pdf" rsThree).average_density) / 2 := by
  refine ⟨fun files => ?_, rfl, rfl, rfl, rfl, ?_⟩
  · induction files with
    | nil => exact ⟨rfl, rfl⟩
    | cons f rest ih =>
      rcases f with ⟨name, outcome⟩
      cases outcome with
      | error e =>
        unfold analyzeFolder
        simp only [List.filterMap_cons]
        exact ⟨ih.1, by rw [ih.2]⟩
      | ok rs =>
        unfold analyzeFolder
        simp only [List.filterMap_cons]
        exact ⟨by rw [ih.1], ih.2⟩
  · show calculateGlobalMeanDensity
      [aggregateResults "doc1.pdf" rsOne, aggregateResults "doc3.pdf" rsThree] = _
    unfold calculateGlobalMeanDensity validResults aggregateResults
    norm_num [rsOne, rsThree]

/-- Python str.strip: drop whitespace characters from both ends of the
character sequence. -/
def pyStrip (s : List Char) : List Char :=
  ((s.dropWhile Char.isWhitespace).reverse.dropWhile Char.isWhitespace).reverse

/-- Retention test of docana.py line 164: the candidate is kept when its
stripped form is truthy (nonempty) and strictly longer than 5 characters. -/
def pdfKeepSentence (s : List Char) : Bool :=
  decide (pyStrip s ≠ []) && decide ((pyStrip s).length > 5)

/-- List comprehension of docana.py line 164: stripped candidates passing
the plain-text retention test. -/
def pdfFilterSentences (ss : List (List Char)) : List (List Char) :=
  ss.filterMap fun s => if pdfKeepSentence s then some (pyStrip s) else none

/-- Retention test of mdana.py line 261: stripped form nonempty and
strictly longer than 3 characters. -/
def mdKeepSentence (s : List Char) : Bool :=
  decide (pyStrip s ≠ []) && decide ((pyStrip s).length > 3)

/-- List comprehension of mdana.py line 261. -/
def mdFilterSentences (ss : List (List Char)) : List (List Char) :=
  ss.filterMap fun s => if mdKeepSentence s then some (pyStrip s) else none

/-- C8 counterexample: a trimmed candidate of length exactly 5 (plain
text), respectively exactly 3 (markdown), is nonempty and not shorter than
the claimed minimum length, yet both filters drop it: the sources keep
only lengths strictly greater than 5, respectively 3. -/
theorem min_length_boundary_dropped :
    pyStrip "abcde".data = "abcde".data ∧ "abcde".data.length = 5 ∧
    pdfFilterSentences ["abcde".data] = [] ∧
    pyStrip "abc".data = "abc".data ∧ "abc".data.length = 3 ∧
    mdFilterSentences ["abc".data] = [] := by
  refine ⟨?_, rfl, ?_, ?_, rfl, ?_⟩ <;> decide

theorem pdfKeepSentence_iff (s : List Char) :
    pdfKeepSentence s = true ↔ pyStrip s ≠ [] ∧ (pyStrip s).length > 5 := by
  unfold pdfKeepSentence
  rw [Bool.and_eq_true, decide_eq_true_eq, decide_eq_true_eq]

theorem mdKeepSentence_iff (s : List Char) :
    mdKeepSentence s = true ↔ pyStrip s ≠ [] ∧ (pyStrip s).length > 3 := by
  unfold mdKeepSentence
  rw [Bool.and_eq_true, decide_eq_true_eq, decide_eq_true_eq]

/-- C8 amended: a trimmed candidate segment is retained for scoring iff it
is non-empty and strictly longer than 5 characters for plain-text
documents, respectively strictly longer than 3 characters for markdown —
so the shortest retained trimmed length is 6, respectively 4, and a
trimmed segment of length exactly 5, respectively 3, is discarded. -/
theorem segment_filter_characterization :
    (∀ (ss : List (List Char)) (s : List Char),
      s ∈ pdfFilterSentences ss ↔
        ∃ t, t ∈ ss ∧ pyStrip t = s ∧ s ≠ [] ∧ s.length > 5) ∧
    (∀ (ss : List (List Char)) (s : List Char),
      s ∈ mdFilterSentences ss ↔
        ∃ t, t ∈ ss ∧ pyStrip t = s ∧ s ≠ [] ∧ s.length > 3) := by
  constructor
  · intro ss s
    unfold pdfFilterSentences
    rw [List.mem_filterMap]
    constructor
    · rintro ⟨t, ht, hf⟩
      by_cases hk : pdfKeepSentence t = true
      · rw [if_pos hk, Option.some.injEq] at hf
        rcases (pdfKeepSentence_iff t).mp hk with ⟨hne, hlen⟩
        exact ⟨t, ht, hf, hf ▸ hne, hf ▸ hlen⟩
      · rw [if_neg hk] at hf
        exact absurd hf (by simp)
    · rintro ⟨t, ht, htrim, hne, hlen⟩
      refine ⟨t, ht, ?_⟩
      rw [if_pos ((pdfKeepSentence_iff t).mpr ⟨htrim ▸ hne, htrim ▸ hlen⟩), htrim]
  · intro ss s
    unfold mdFilterSentences
    rw [List.mem_filterMap]
    constructor
    · rintro ⟨t, ht, hf⟩
      by_cases hk : mdKeepSentence t = true
      · rw [if_pos hk, Option.some.injEq] at hf
        rcases (mdKeepSentence_iff t).mp hk with ⟨hne, hlen⟩
        exact ⟨t, ht, hf, hf ▸ hne, hf ▸ hlen⟩
      · rw [if_neg hk] at hf
        exact absurd hf (by simp)
    · rintro ⟨t, ht, htrim, hne, hlen⟩
      refine ⟨t, ht, ?_⟩
      rw [if_pos ((mdKeepSentence_iff t).mpr ⟨htrim ▸ hne, htrim ▸ hlen⟩), htrim]

/-- Witness for C8's amended characterization: a six-character stripped
candidate is retained by the plain-text filter and a four-character one by
the markdown filter. -/
theorem segment_filter_characterization_witness :
    "abcdef".data ∈ pdfFilterSentences ["abcdef".data] ∧
    "abcd".data ∈ mdFilterSentences ["abcd".data] :=
  ⟨(segment_filter_characterization.1 ["abcdef".data] "abcdef".data).mpr
      ⟨"abcdef".data, by decide, by decide, by decide, by decide⟩,
    (segment_filter_characterization.2 ["abcd".data] "abcd".data).mpr
      ⟨"abcd".data, by decide, by decide, by decide, by decide⟩⟩

/-- Scanner state of process_content (根据标点符号分段md文件.py lines
25-36): whether the scan is inside a quoted span and which opening quote
started it. -/
structure QuoteState where
  inQuotes : Bool
  quoteStart : Option Char
deriving Repr, DecidableEq

/-- Quote pair table of process_content (lines 28-35). In the source all
six dict entries are written with the ASCII double and single quote, so
the literal collapses to exactly two keys. -/
def quotePairs (c : Char) : Option Char :=
  if c = '"' then some '"'
  else if c = '\'' then some '\''
  else none

/-- Closing character expected for the current quote span:
`quote_pairs.get(current_quote_start, '')` of line 47. -/
def closingFor (s : QuoteState) : Option Char :=
  match s.quoteStart with
  | none => none
  | some q => quotePairs q

/-- One iteration of the scan loop of process_content (lines 38-60):
open a quote, close a quote, emit a full-width terminal mark (with the
paragraph break only while unquoted), or copy the character through. -/
def processStep (s : QuoteState) (c : Char) : QuoteState × List Char :=
  if s.inQuotes = false ∧ (quotePairs c).isSome then
    ({ inQuotes := true, quoteStart := some c }, [c])
  else if s.inQuotes = true ∧ closingFor s = some c then
    ({ inQuotes := false, quoteStart := none }, [c])
  else if c ∈ ['。', '？', '！'] then
    if s.inQuotes = false then (s, [c, '\n', '\n']) else (s, [c])
  else (s, [c])

/-- Full scan of process_content over the character sequence. -/
def processChars : QuoteState → List Char → List Char
  | _, [] => []
  | s, c :: rest =>
    (processStep s c).2 ++ processChars (processStep s c).1 rest

/-- Newline-run cleanup of process_content line 65: each maximal run of
three or more newlines is replaced with exactly two, shorter runs pass
through; the accumulator counts the pending newline run. -/
def collapseNewlineRuns : Nat → List Char → List Char
  | n, [] => List.replicate (min n 2) '\n'
  | n, c :: rest =>
    if c = '\n' then collapseNewlineRuns (n + 1) rest
    else List.replicate (min n 2) '\n' ++ c :: collapseNewlineRuns 0 rest

/-- process_content of 根据标点符号分段md文件.py (lines 15-67). -/
def process_content (content : String) : String :=
  String.mk (collapseNewlineRuns 0 (processChars ⟨false, none⟩ content.data))

/-- Any expected closing character is one of the two ASCII quotes. -/
theorem closingFor_quote (s : QuoteState) (c : Char)
    (h : closingFor s = some c) : c = '"' ∨ c = '\'' := by
  rcases s with ⟨b, qs⟩
  cases qs with
  | none => exact absurd h (by simp [closingFor])
  | some q =>
    simp only [closingFor] at h
    unfold quotePairs at h
    split at h
    · exact Or.inl (Option.some_inj.mp h).symm
    · split at h
      · exact Or.inr (Option.some_inj.mp h).symm
      · exact absurd h (by simp)

/-- C2 counterexample: on the spec's own example text the code emits no
break at all — the output equals the input and contains no newline — so
the claimed break after 接下来... does not occur: the trailing ASCII
periods are not in the full-width terminal set ['。', '？', '！'] of
process_content, refuting the claim that ASCII terminal punctuation
triggers a break. -/
theorem process_content_spec_example_no_break :
    process_content "\"SU7真能把BBA按地上摩擦？\" 接下来..." =
      "\"SU7真能把BBA按地上摩擦？\" 接下来..." ∧
    (process_content "\"SU7真能把BBA按地上摩擦？\" 接下来...").data.count '\n' = 0 := by
  constructor <;> decide

/-- C2 amended: the segmenter emits a break immediately after a terminal
mark only for the full-width marks 。？！ — ASCII . ? ! never trigger a
break — and only while not inside a quoted span (opened by a paired quote
from the fixed, ASCII-only table and not yet closed), the mark being
retained in the output in every case; on the spec example no break occurs
at the internal ？ inside the quotes and none after 接下来... either,
because its trailing periods are ASCII, while the variant ending in
full-width 。 does get a break there. -/
theorem process_content_fullwidth_quote_aware :
    (∀ (s : QuoteState) (c : Char), c ∈ ['。', '？', '！'] →
      s.inQuotes = false → (processStep s c).2 = [c, '\n', '\n']) ∧
    (∀ (s : QuoteState) (c : Char), c ∈ ['。', '？', '！'] →
      s.inQuotes = true → (processStep s c).2 = [c]) ∧
    (∀ (s : QuoteState) (c : Char), c ∈ ['.', '?', '!'] →
      (processStep s c).2 = [c]) ∧
    process_content "\"SU7真能把BBA按地上摩擦？\" 接下来..." =
      "\"SU7真能把BBA按地上摩擦？\" 接下来..." ∧
    process_content "\"SU7真能把BBA按地上摩擦？\" 接下来。" =
      "\"SU7真能把BBA按地上摩擦？\" 接下来。\n\n" := by
  refine ⟨?_, ?_, ?_, ?_, ?_⟩
  · intro s c hc hq
    have h₁ : ¬(s.inQuotes = false ∧ (quotePairs c).isSome) := by
      rintro ⟨-, hqp⟩
      fin_cases hc <;> simp [quotePairs] at hqp
    have h₂ : ¬(s.inQuotes = true ∧ closingFor s = some c) := by
      rintro ⟨hq₂, -⟩
      rw [hq] at hq₂
      exact Bool.false_ne_true hq₂
    unfold processStep
    rw [if_neg h₁, if_neg h₂, if_pos hc, if_pos hq]
  · intro s c hc hq
    have h₁ : ¬(s.inQuotes = false ∧ (quotePairs c).isSome) := by
      rintro ⟨hq₂, -⟩
      rw [hq] at hq₂
      exact absurd hq₂ (by decide)
    have h₂ : ¬(s.inQuotes = true ∧ closingFor s = some c) := by
      rintro ⟨-, hcl⟩
      rcases closingFor_quote s c hcl with rfl | rfl <;> simp at hc
    unfold processStep
    rw [if_neg h₁, if_neg h₂, if_pos hc, if_neg (by rw [hq]; decide)]
  · intro s c hc
    have h₁ : ¬(s.inQuotes = false ∧ (quotePairs c).isSome) := by
      rintro ⟨-, hqp⟩
      fin_cases hc <;> simp [quotePairs] at hqp
    have h₂ : ¬(s.inQuotes = true ∧ closingFor s = some c) := by
      rintro ⟨-, hcl⟩
      rcases closingFor_quote s c hcl with rfl | rfl <;> simp at hc
    have h₃ : c ∉ ['。', '？', '！'] := by
      fin_cases hc <;> decide
    unfold processStep
    rw [if_neg h₁, if_neg h₂, if_neg h₃]
  · decide
  · decide

/-- Witness for C2's amended theorem: the three step facts at concrete
states and characters. -/
theorem process_content_fullwidth_quote_aware_witness :
    ('。' ∈ ['。', '？', '！'] ∧ (QuoteState.mk false none).inQuotes = false ∧
      (processStep ⟨false, none⟩ '。').2 = ['。', '\n', '\n']) ∧
    ('？' ∈ ['。', '？', '！'] ∧
      (QuoteState.mk true (some '"')).inQuotes = true ∧
      (processStep ⟨true, some '"'⟩ '？').2 = ['？']) ∧
    ('.' ∈ ['.', '?', '!'] ∧ (processStep ⟨false, none⟩ '.').2 = ['.']) :=
  ⟨⟨by decide, rfl,
      process_content_fullwidth_quote_aware.1 ⟨false, none⟩ '。' (by decide) rfl⟩,
    ⟨by decide, rfl,
      process_content_fullwidth_quote_aware.2.1 ⟨true, some '"'⟩ '？' (by decide) rfl⟩,
    ⟨by decide,
      process_content_fullwidth_quote_aware.2.2.1 ⟨false, none⟩ '.' (by decide)⟩⟩

end DocTools
